import Mathlib

/-!
Verification of the 2D batching and sprite-mask stencil coordination layer
of the engine, as a shallow embedding of the TypeScript sources:
  - `SpriteMaskManager` (mask diff, preRender / postRender stencil bookkeeping),
  - `SpriteMaskBatcher._drawBatches` (per-chunk draw loop),
  - `SpriteBatcher.drawSprite` (vertex-budget flush),
  - `ModelMesh` (mesh data buffer lifecycle; the class source is absent from
    the repository snapshot, so it is modelled from the spec and its test file).
TypeScript numbers used in bitwise layer arithmetic are modelled as `Nat`
restricted to 32 bits, with complement taken against the 32-bit all-ones word.
-/

namespace EngineCore

/-- GPU stencil operations, from the shader enum used by the mask pipeline. -/
inductive StencilOperation
  | keep
  | zero
  | replace
  | incrementSaturate
  | decrementSaturate
  | invert
  | incrementWrap
  | decrementWrap
deriving DecidableEq, Repr

/-- GPU stencil compare functions, from the shader enum. -/
inductive CompareFunction
  | never
  | less
  | equal
  | lessEqual
  | greater
  | notEqual
  | greaterEqual
  | always
deriving DecidableEq, Repr

/-- Mask interaction mode of a 2D renderer (`SpriteMaskInteraction`). -/
inductive SpriteMaskInteraction
  | none
  | visibleInsideMask
  | visibleOutsideMask
deriving DecidableEq, Repr

/-- A registered sprite mask: its identity and its `influenceLayers` bitmask.
The geometry payload (`_maskElement`) is irrelevant to the diff algorithm and
is represented by the identity alone. -/
structure SpriteMask where
  id : Nat
  influenceLayers : Nat
deriving DecidableEq, Repr

/-- 32-bit complement: JavaScript `~x` on a layer bitmask `x < 2^32`,
reinterpreted as an unsigned 32-bit word (xor with the all-ones word). -/
def not32 (x : Nat) : Nat := 4294967295 ^^^ x

/-- The per-mask branch of the loop body of
`SpriteMaskManager._processMasksDiff`: first the common-layer test (skip),
then the add-layer test (increment-saturate), then the reduce-layer test
(decrement-saturate); otherwise no draw. -/
def maskStencilOp (commonLayer addLayer reduceLayer influenceLayers : Nat) :
    Option StencilOperation :=
  if influenceLayers &&& commonLayer ≠ 0 then Option.none
  else if influenceLayers &&& addLayer ≠ 0 then some StencilOperation.incrementSaturate
  else if influenceLayers &&& reduceLayer ≠ 0 then some StencilOperation.decrementSaturate
  else Option.none

/-- The loop of `_processMasksDiff` over the registered masks, emitting the
batched `(mask, stencil operation)` draw calls in registry order. -/
def diffCore (commonLayer addLayer reduceLayer : Nat) :
    List SpriteMask → List (SpriteMask × StencilOperation)
  | [] => []
  | mask :: rest =>
    match maskStencilOp commonLayer addLayer reduceLayer mask.influenceLayers with
    | Option.none => diffCore commonLayer addLayer reduceLayer rest
    | some op => (mask, op) :: diffCore commonLayer addLayer reduceLayer rest

/-- `SpriteMaskManager._processMasksDiff`: when the previous and current mask
layers differ, compute `commonLayer = pre & cur`, `addLayer = cur & ~pre`,
`reduceLayer = pre & ~cur` and walk the registered masks; when they are equal,
do nothing. -/
def processMasksDiff (preMaskLayer curMaskLayer : Nat) (masks : List SpriteMask) :
    List (SpriteMask × StencilOperation) :=
  if preMaskLayer ≠ curMaskLayer then
    diffCore (preMaskLayer &&& curMaskLayer)
      (curMaskLayer &&& not32 preMaskLayer)
      (preMaskLayer &&& not32 curMaskLayer) masks
  else []

/-- Number of occurrences of a mask in the registry list. -/
def maskCount (m : SpriteMask) (masks : List SpriteMask) : Nat :=
  (masks.filter fun x => decide (x = m)).length

/-- Number of draw calls issued for a given mask, any stencil operation. -/
def drawsFor (m : SpriteMask) (calls : List (SpriteMask × StencilOperation)) : Nat :=
  (calls.filter fun c => decide (c.1 = m)).length

/-- Number of draw calls issued for a given mask with a given stencil operation. -/
def drawCountOf (m : SpriteMask) (op : StencilOperation)
    (calls : List (SpriteMask × StencilOperation)) : Nat :=
  (calls.filter fun c => decide (c.1 = m ∧ c.2 = op)).length

/-- The five stencil-state fields of a material render state that
`SpriteMaskManager._copyStencilState` saves and restores. -/
structure StencilState where
  enabled : Bool
  writeMask : Nat
  referenceValue : Nat
  compareFunctionFront : CompareFunction
  compareFunctionBack : CompareFunction
deriving DecidableEq, Repr

/-- The mutable state of a `SpriteMaskManager`: the previous mask layer, the
registered masks (`_allSpriteMasks`), and the pending queue of its dedicated
mask batcher. -/
structure MaskManagerState where
  preMaskLayer : Nat
  allSpriteMasks : List SpriteMask
  batcherQueue : List (SpriteMask × StencilOperation)
deriving DecidableEq, Repr

/-- The fields of a 2D renderer that the mask manager reads and writes:
its mask interaction mode, its mask layer, and the stencil state of its
material render state. -/
structure Renderer2D where
  maskInteraction : SpriteMaskInteraction
  maskLayer : Nat
  stencilState : StencilState
deriving DecidableEq, Repr

/-- The compare function `preRender` forces on the renderer:
`LessEqual` for `VisibleInsideMask`, `Greater` otherwise. -/
def forcedCompare (i : SpriteMaskInteraction) : CompareFunction :=
  if i = SpriteMaskInteraction.visibleInsideMask then CompareFunction.lessEqual
  else CompareFunction.greater

/-- The observable outcome of one `SpriteMaskManager.preRender` call:
the manager state afterwards, the value of the static temp stencil snapshot
afterwards, the stencil state written into the renderer material, and the
stencil draw calls the mask batcher issued during `uploadAndDraw`. -/
structure PreRenderResult where
  state : MaskManagerState
  tempStencil : StencilState
  rendererStencil : StencilState
  issuedDraws : List (SpriteMask × StencilOperation)
deriving DecidableEq, Repr

/-- `SpriteMaskManager.preRender`: no-op when `maskInteraction` is `None`;
otherwise save the renderer stencil state into the temp snapshot, force the
mask-test stencil fields, clear the mask batcher, batch the draws of
`_processMasksDiff`, and upload-and-draw them. The batcher operations
(`clear` empties the pending queue, `drawElement` appends, `uploadAndDraw`
issues the queued draws and flushes the queue) live in `Basic2DBatcher`,
which is absent from the repository snapshot; they are modelled from the
spec. -/
def preRender (s : MaskManagerState) (temp : StencilState) (r : Renderer2D) :
    PreRenderResult :=
  if r.maskInteraction = SpriteMaskInteraction.none then
    ⟨s, temp, r.stencilState, []⟩
  else
    let saved := r.stencilState
    let forced : StencilState :=
      { enabled := true
        writeMask := 0
        referenceValue := 1
        compareFunctionFront := forcedCompare r.maskInteraction
        compareFunctionBack := forcedCompare r.maskInteraction }
    let queueAfterDiff :=
      ([] : List (SpriteMask × StencilOperation)) ++
        processMasksDiff s.preMaskLayer r.maskLayer s.allSpriteMasks
    ⟨{ s with batcherQueue := [] }, saved, forced, queueAfterDiff⟩

/-- `SpriteMaskManager.postRender`: no-op when `maskInteraction` is `None`;
otherwise record `_preMaskLayer = renderer.maskLayer` and copy the temp
stencil snapshot back into the renderer material. Returns the manager state
and the renderer stencil state afterwards. -/
def postRender (s : MaskManagerState) (temp : StencilState) (r : Renderer2D) :
    MaskManagerState × StencilState :=
  if r.maskInteraction = SpriteMaskInteraction.none then
    (s, r.stencilState)
  else
    ({ s with preMaskLayer := r.maskLayer }, temp)

/-- One sub-mesh chunk paired with its batched mask element, as iterated by
`SpriteMaskBatcher._drawBatches`: the element identity, its `isAdd` flag
(selects increment or decrement saturate), and whether its material shader
yields a valid program. -/
structure MaskChunk where
  id : Nat
  isAdd : Bool
  programValid : Bool
deriving DecidableEq, Repr

/-- The loop of `SpriteMaskBatcher._drawBatches`: iterate the chunks in
order; a missing sub-mesh or element returns (TS `return`), an invalid
program also returns; otherwise the chunk is drawn with its stencil
operation and the loop continues. Result: the draws actually issued. -/
def drawBatches : List (Option MaskChunk) → List (Nat × StencilOperation)
  | [] => []
  | Option.none :: _ => []
  | some chunk :: rest =>
    let op := if chunk.isAdd then StencilOperation.incrementSaturate
              else StencilOperation.decrementSaturate
    if chunk.programValid = false then []
    else (chunk.id, op) :: drawBatches rest

/-- A sprite element as seen by `SpriteBatcher.drawSprite`: its identity and
its vertex count (`positions.length`). -/
structure SpriteElem where
  id : Nat
  vertexCount : Nat
deriving DecidableEq, Repr

/-- Modelled from the spec: `Basic2DBatcher.MAX_VERTEX_COUNT`, the fixed
vertex budget of one flush buffer (the class source is absent from the
repository snapshot; the spec gives a 16-bit-index-range budget). -/
def MAX_VERTEX_COUNT : Nat := 65535

/-- The observable state of a `SpriteBatcher` for the vertex-budget claim:
the running vertex-count accumulator, the pending element queue, and the
record of batches already flushed, in flush order. -/
structure SpriteBatcherState where
  vertexCount : Nat
  batchedQueue : List SpriteElem
  flushedBatches : List (List SpriteElem)
deriving DecidableEq, Repr

/-- Modelled from the spec: `Basic2DBatcher.flush` — no-op when the queue is
empty; otherwise the pending queue is emitted as one flushed batch and the
queue and vertex accumulator are cleared (the class source is absent from
the repository snapshot). -/
def flushBatcher (s : SpriteBatcherState) : SpriteBatcherState :=
  if s.batchedQueue = [] then s
  else
    { vertexCount := 0
      batchedQueue := []
      flushedBatches := s.flushedBatches ++ [s.batchedQueue] }

/-- `SpriteBatcher.drawSprite`: if the accumulated vertex count plus the
element vertex count exceeds `MAX_VERTEX_COUNT`, flush first; then add the
element vertex count to the accumulator and append the element to the
batched queue. -/
def drawSprite (s : SpriteBatcherState) (e : SpriteElem) : SpriteBatcherState :=
  let len := e.vertexCount
  let s1 := if s.vertexCount + len > MAX_VERTEX_COUNT then flushBatcher s else s
  { s1 with
    vertexCount := s1.vertexCount + len
    batchedQueue := s1.batchedQueue ++ [e] }

/-- Occurrences of a sprite element in a list. -/
def occCount (e : SpriteElem) (l : List SpriteElem) : Nat :=
  (l.filter fun x => decide (x = e)).length

/-- Total occurrences of a sprite element across everything the batcher has
accepted: all flushed batches plus the pending queue. -/
def totalOcc (e : SpriteElem) (s : SpriteBatcherState) : Nat :=
  occCount e (s.flushedBatches.flatten ++ s.batchedQueue)

/-- A CPU-side attribute array handed to the mesh data buffer, identified by
reference: the identity stands for the JS array object, so equality of
`ArrRef` values is reference equality of the underlying arrays. -/
structure ArrRef where
  id : Nat
  length : Nat
deriving DecidableEq, Repr

/-- The typed index arrays accepted by `ModelMesh.setIndices`. -/
inductive TypedIndexArray
  | u8 (values : List Nat)
  | u16 (values : List Nat)
  | u32 (values : List Nat)
deriving DecidableEq, Repr

/-- The stored index element width (`IndexFormat`). -/
inductive IndexFormat
  | uInt8
  | uInt16
  | uInt32
deriving DecidableEq, Repr

/-- The vertex attribute kinds of the mesh data buffer accessors. -/
inductive VertexAttributeKind
  | position
  | color
  | normal
  | tangent
  | weight
  | joint
  | uv
  | uv1
  | uv2
  | uv3
  | uv4
  | uv5
  | uv6
  | uv7
deriving DecidableEq, Repr

/-- Modelled from the spec: the `ModelMesh` data buffer state (the class
source is absent from the repository snapshot; only its test file is
present). Attribute arrays and index arrays are stored by reference; the
packed interleaved buffer `_verticesFloat32` is represented by an
allocation counter whose value stands for the buffer identity. -/
structure ModelMesh where
  accessible : Bool
  vertexCount : Nat
  vertexCountChanged : Bool
  attributes : VertexAttributeKind → Option ArrRef
  indices : Option TypedIndexArray
  indicesFormat : Option IndexFormat
  verticesFloat32 : Nat

/-- The fresh mesh: accessible, no data set. -/
def initialMesh : ModelMesh where
  accessible := true
  vertexCount := 0
  vertexCountChanged := false
  attributes := fun _ => Option.none
  indices := Option.none
  indicesFormat := Option.none
  verticesFloat32 := 0

def accessErrorMsg : String := "Not allowed to access data while accessible is false."

def sizeErrorMsg : String := "The array provided needs to be the same size as vertex count."

/-- Modelled from the spec: the `ModelMesh` set-accessors. Every accessor
first requires `accessible`; `setPositions` establishes the vertex count
from the array length (recording a change of count); every other attribute
accessor requires the array length to equal the vertex count; on success the
array reference is stored as-is. -/
def setAttr (m : ModelMesh) (kind : VertexAttributeKind) (values : ArrRef) :
    Except String ModelMesh :=
  if m.accessible = false then Except.error accessErrorMsg
  else if kind = VertexAttributeKind.position then
    Except.ok
      { m with
        vertexCount := values.length
        vertexCountChanged := m.vertexCountChanged || decide (values.length ≠ m.vertexCount)
        attributes := fun k => if k = kind then some values else m.attributes k }
  else if values.length ≠ m.vertexCount then Except.error sizeErrorMsg
  else
    Except.ok
      { m with
        attributes := fun k => if k = kind then some values else m.attributes k }

/-- Modelled from the spec: the `ModelMesh` get-accessors return the exact
array reference last stored (identity-preserving), requiring `accessible`. -/
def getAttr (m : ModelMesh) (kind : VertexAttributeKind) :
    Except String (Option ArrRef) :=
  if m.accessible = false then Except.error accessErrorMsg
  else Except.ok (m.attributes kind)

/-- The stored index format of a typed index array: it reflects the exact
array type passed, as asserted by the `ModelMesh` test file. -/
def indicesFormatOf : TypedIndexArray → IndexFormat
  | TypedIndexArray.u8 _ => IndexFormat.uInt8
  | TypedIndexArray.u16 _ => IndexFormat.uInt16
  | TypedIndexArray.u32 _ => IndexFormat.uInt32

/-- The index width the claim words prescribe: the minimal of
{8, 16, 32} bits that can hold every index value. Stated from the spec
sentence, to be compared against the stored format. -/
def minimalIndexFormat (values : List Nat) : IndexFormat :=
  if values.all fun v => v < 256 then IndexFormat.uInt8
  else if values.all fun v => v < 65536 then IndexFormat.uInt16
  else IndexFormat.uInt32

/-- Modelled from the spec: `ModelMesh.setIndices` — requires `accessible`;
`null` clears the indices; a typed array is stored by reference together
with its format. -/
def setIndices (m : ModelMesh) (values : Option TypedIndexArray) :
    Except String ModelMesh :=
  if m.accessible = false then Except.error accessErrorMsg
  else
    Except.ok
      { m with
        indices := values
        indicesFormat := values.map indicesFormatOf }

/-- Modelled from the spec: `ModelMesh.getIndices` — requires `accessible`,
returns the stored index array reference. -/
def getIndices (m : ModelMesh) : Except String (Option TypedIndexArray) :=
  if m.accessible = false then Except.error accessErrorMsg
  else Except.ok m.indices

/-- Modelled from the spec: `ModelMesh.uploadData` — packs the dirty state
(reallocating the interleaved buffer when the vertex count changed, which
changes the buffer identity) and resets the changed flag; when
`noLongerAccessible` is true it sets `accessible = false` and releases the
CPU-side references. -/
def uploadData (m : ModelMesh) (noLongerAccessible : Bool) : ModelMesh :=
  let m1 :=
    { m with
      verticesFloat32 :=
        if m.vertexCountChanged then m.verticesFloat32 + 1 else m.verticesFloat32
      vertexCountChanged := false }
  if noLongerAccessible then
    { m1 with
      accessible := false
      attributes := fun _ => Option.none
      indices := Option.none
      indicesFormat := Option.none }
  else m1

/-- A concrete stencil state used by concrete instances below. -/
def sampleStencil : StencilState where
  enabled := false
  writeMask := 255
  referenceValue := 0
  compareFunctionFront := CompareFunction.always
  compareFunctionBack := CompareFunction.always

lemma maskCount_cons (m x : SpriteMask) (t : List SpriteMask) :
    maskCount m (x :: t) = (if x = m then 1 else 0) + maskCount m t := by
  by_cases h : x = m
  · simp [maskCount, List.filter_cons, h]
    omega
  · simp [maskCount, List.filter_cons, h]

lemma drawCountOf_cons (m : SpriteMask) (op : StencilOperation)
    (y : SpriteMask × StencilOperation) (l : List (SpriteMask × StencilOperation)) :
    drawCountOf m op (y :: l)
      = (if y.1 = m ∧ y.2 = op then 1 else 0) + drawCountOf m op l := by
  by_cases h : y.1 = m ∧ y.2 = op
  · simp [drawCountOf, List.filter_cons, h]
    omega
  · simp [drawCountOf, List.filter_cons, h]

lemma drawsFor_cons (m : SpriteMask)
    (y : SpriteMask × StencilOperation) (l : List (SpriteMask × StencilOperation)) :
    drawsFor m (y :: l) = (if y.1 = m then 1 else 0) + drawsFor m l := by
  by_cases h : y.1 = m
  · simp [drawsFor, List.filter_cons, h]
    omega
  · simp [drawsFor, List.filter_cons, h]

lemma diffCore_cons_none (c a r : Nat) (x : SpriteMask) (t : List SpriteMask)
    (hop : maskStencilOp c a r x.influenceLayers = Option.none) :
    diffCore c a r (x :: t) = diffCore c a r t := by
  simp [diffCore, hop]

lemma diffCore_cons_some (c a r : Nat) (x : SpriteMask) (t : List SpriteMask)
    (op : StencilOperation) (hop : maskStencilOp c a r x.influenceLayers = some op) :
    diffCore c a r (x :: t) = (x, op) :: diffCore c a r t := by
  simp [diffCore, hop]

lemma drawCountOf_diffCore (m : SpriteMask) (op : StencilOperation)
    (c a r : Nat) (masks : List SpriteMask) :
    drawCountOf m op (diffCore c a r masks)
      = maskCount m masks *
          (if maskStencilOp c a r m.influenceLayers = some op then 1 else 0) := by
  induction masks with
  | nil => simp [diffCore, drawCountOf, maskCount]
  | cons x t ih =>
    cases hop : maskStencilOp c a r x.influenceLayers with
    | none =>
      rw [diffCore_cons_none c a r x t hop, ih, maskCount_cons]
      by_cases hx : x = m
      · subst hx; rw [hop]; simp
      · simp [hx]
    | some o =>
      rw [diffCore_cons_some c a r x t o hop, drawCountOf_cons, ih, maskCount_cons]
      by_cases hx : x = m
      · subst hx
        rw [hop]
        by_cases ho : o = op
        · subst ho; simp [Nat.add_mul]
        · simp [ho, Nat.add_mul]
      · simp [hx]

lemma drawsFor_diffCore (m : SpriteMask) (c a r : Nat) (masks : List SpriteMask) :
    drawsFor m (diffCore c a r masks)
      = maskCount m masks *
          (if (maskStencilOp c a r m.influenceLayers).isSome then 1 else 0) := by
  induction masks with
  | nil => simp [diffCore, drawsFor, maskCount]
  | cons x t ih =>
    cases hop : maskStencilOp c a r x.influenceLayers with
    | none =>
      rw [diffCore_cons_none c a r x t hop, ih, maskCount_cons]
      by_cases hx : x = m
      · subst hx; rw [hop]; simp
      · simp [hx]
    | some o =>
      rw [diffCore_cons_some c a r x t o hop, drawsFor_cons, ih, maskCount_cons]
      by_cases hx : x = m
      · subst hx; rw [hop]; simp [Nat.add_mul]
      · simp [hx]

lemma maskStencilOp_add_zero_ne_inc (c r infl : Nat) :
    maskStencilOp c 0 r infl ≠ some StencilOperation.incrementSaturate := by
  unfold maskStencilOp
  split_ifs with h1 h2 h3 <;> simp_all

lemma maskStencilOp_zero_influence (c a r : Nat) :
    maskStencilOp c a r 0 = Option.none := by
  simp [maskStencilOp, Nat.zero_and]

lemma occCount_append (e : SpriteElem) (l1 l2 : List SpriteElem) :
    occCount e (l1 ++ l2) = occCount e l1 + occCount e l2 := by
  simp [occCount, List.filter_append]

lemma occCount_singleton (e2 e : SpriteElem) :
    occCount e2 [e] = if e2 = e then 1 else 0 := by
  by_cases he : e2 = e
  · subst he; simp [occCount]
  · simp [occCount, he, Ne.symm he]

lemma totalOcc_flushBatcher (e2 : SpriteElem) (s : SpriteBatcherState) :
    totalOcc e2 (flushBatcher s) = totalOcc e2 s := by
  by_cases hq : s.batchedQueue = []
  · simp [flushBatcher, hq]
  · simp only [flushBatcher, if_neg hq, totalOcc]
    simp [occCount_append]

lemma totalOcc_append_elem (e2 e : SpriteElem) (s1 : SpriteBatcherState) (v : Nat) :
    totalOcc e2
        { s1 with vertexCount := v, batchedQueue := s1.batchedQueue ++ [e] }
      = totalOcc e2 s1 + (if e2 = e then 1 else 0) := by
  simp only [totalOcc]
  simp [occCount_append, occCount_singleton]
  omega

/-- C1 (counterexample to the claim as stated): with `prev = 0b101` and
`cur = 0b110`, a registered mask with `influenceLayers = 0b110` intersects
`toAdd = cur & ~prev = 0b010`, yet the diff issues no draw at all for it,
because its intersection with the common layer `0b100` is checked first and
skips it. -/
theorem maskDiff_claimed_add_draw_cex :
    ((6 : Nat) &&& (6 &&& not32 5) ≠ 0) ∧
      processMasksDiff 5 6 [⟨0, 6⟩] = [] := by
  constructor
  · decide
  · decide

/-- C1 (amended): in `_processMasksDiff`, if `prev = cur` nothing is drawn;
otherwise a registered mask (appearing once in the registry) whose
`influenceLayers` intersects the common layer receives no draw; otherwise,
if it intersects `toAdd = cur & ~prev` it is drawn exactly once, with
increment-saturate; otherwise, if it intersects `toRemove = prev & ~cur` it
is drawn exactly once, with decrement-saturate; and a mask intersecting none
of the three receives no draw. -/
theorem maskDiff_draw_characterization
    (preMaskLayer curMaskLayer : Nat) (masks : List SpriteMask) (m : SpriteMask)
    (hcount : maskCount m masks = 1) :
    (preMaskLayer = curMaskLayer →
      processMasksDiff preMaskLayer curMaskLayer masks = []) ∧
    (preMaskLayer ≠ curMaskLayer →
      ((m.influenceLayers &&& (preMaskLayer &&& curMaskLayer) ≠ 0 →
          drawsFor m (processMasksDiff preMaskLayer curMaskLayer masks) = 0) ∧
       (m.influenceLayers &&& (preMaskLayer &&& curMaskLayer) = 0 →
          m.influenceLayers &&& (curMaskLayer &&& not32 preMaskLayer) ≠ 0 →
          drawCountOf m StencilOperation.incrementSaturate
              (processMasksDiff preMaskLayer curMaskLayer masks) = 1 ∧
            drawsFor m (processMasksDiff preMaskLayer curMaskLayer masks) = 1) ∧
       (m.influenceLayers &&& (preMaskLayer &&& curMaskLayer) = 0 →
          m.influenceLayers &&& (curMaskLayer &&& not32 preMaskLayer) = 0 →
          m.influenceLayers &&& (preMaskLayer &&& not32 curMaskLayer) ≠ 0 →
          drawCountOf m StencilOperation.decrementSaturate
              (processMasksDiff preMaskLayer curMaskLayer masks) = 1 ∧
            drawsFor m (processMasksDiff preMaskLayer curMaskLayer masks) = 1) ∧
       (m.influenceLayers &&& (preMaskLayer &&& curMaskLayer) = 0 →
          m.influenceLayers &&& (curMaskLayer &&& not32 preMaskLayer) = 0 →
          m.influenceLayers &&& (preMaskLayer &&& not32 curMaskLayer) = 0 →
          drawsFor m (processMasksDiff preMaskLayer curMaskLayer masks) = 0))) := by
  refine ⟨fun h => by simp [processMasksDiff, h], fun hne => ?_⟩
  have hdiff : processMasksDiff preMaskLayer curMaskLayer masks
      = diffCore (preMaskLayer &&& curMaskLayer)
          (curMaskLayer &&& not32 preMaskLayer)
          (preMaskLayer &&& not32 curMaskLayer) masks := by
    simp [processMasksDiff, hne]
  refine ⟨fun hc => ?_, fun hc ha => ⟨?_, ?_⟩, fun hc ha hr => ⟨?_, ?_⟩,
    fun hc ha hr => ?_⟩
  · rw [hdiff, drawsFor_diffCore, hcount]
    simp [maskStencilOp, hc]
  · rw [hdiff, drawCountOf_diffCore, hcount]
    simp [maskStencilOp, hc, ha]
  · rw [hdiff, drawsFor_diffCore, hcount]
    simp [maskStencilOp, hc, ha]
  · rw [hdiff, drawCountOf_diffCore, hcount]
    simp [maskStencilOp, hc, ha, hr]
  · rw [hdiff, drawsFor_diffCore, hcount]
    simp [maskStencilOp, hc, ha, hr]
  · rw [hdiff, drawsFor_diffCore, hcount]
    simp [maskStencilOp, hc, ha, hr]

/-- Witness for the amended C1 theorem at `prev = 0b101`, `cur = 0b110` and
the single-bit masks of the spec example. -/
theorem maskDiff_draw_characterization_witness :
    drawCountOf ⟨0, 2⟩ StencilOperation.incrementSaturate
        (processMasksDiff 5 6 [⟨0, 2⟩, ⟨1, 1⟩, ⟨2, 4⟩]) = 1 ∧
    drawCountOf ⟨1, 1⟩ StencilOperation.decrementSaturate
        (processMasksDiff 5 6 [⟨0, 2⟩, ⟨1, 1⟩, ⟨2, 4⟩]) = 1 ∧
    drawsFor ⟨2, 4⟩ (processMasksDiff 5 6 [⟨0, 2⟩, ⟨1, 1⟩, ⟨2, 4⟩]) = 0 := by
  refine ⟨?_, ?_, ?_⟩
  · exact (((maskDiff_draw_characterization 5 6 [⟨0, 2⟩, ⟨1, 1⟩, ⟨2, 4⟩] ⟨0, 2⟩
      (by decide)).2 (by decide)).2.1 (by decide) (by decide)).1
  · exact (((maskDiff_draw_characterization 5 6 [⟨0, 2⟩, ⟨1, 1⟩, ⟨2, 4⟩] ⟨1, 1⟩
      (by decide)).2 (by decide)).2.2.1 (by decide) (by decide) (by decide)).1
  · exact ((maskDiff_draw_characterization 5 6 [⟨0, 2⟩, ⟨1, 1⟩, ⟨2, 4⟩] ⟨2, 4⟩
      (by decide)).2 (by decide)).1 (by decide)

/-- C2: during `preRender` with differing previous and current mask layers,
a mask whose `influenceLayers` intersects the common layer
`prev & cur` receives no stencil draw at all — including when it also
intersects the add layer or the remove layer — because the common-layer
check runs first and skips the mask. -/
theorem preRender_common_layer_skip
    (s : MaskManagerState) (temp : StencilState) (r : Renderer2D) (m : SpriteMask)
    (hint : r.maskInteraction ≠ SpriteMaskInteraction.none)
    (hne : s.preMaskLayer ≠ r.maskLayer)
    (hcommon : m.influenceLayers &&& (s.preMaskLayer &&& r.maskLayer) ≠ 0) :
    drawsFor m (preRender s temp r).issuedDraws = 0 := by
  simp only [preRender, if_neg hint, List.nil_append]
  simp only [processMasksDiff, if_pos hne]
  rw [drawsFor_diffCore]
  simp [maskStencilOp, hcommon]

/-- Witness for C2: `prev = 0b101`, `cur = 0b110`, and a mask whose
`influenceLayers = 0b111` intersects common, add and remove layers; it is
skipped entirely. -/
theorem preRender_common_layer_skip_witness :
    drawsFor ⟨0, 7⟩
        (preRender ⟨5, [⟨0, 7⟩], []⟩ sampleStencil
          ⟨SpriteMaskInteraction.visibleInsideMask, 6, sampleStencil⟩).issuedDraws = 0 :=
  preRender_common_layer_skip ⟨5, [⟨0, 7⟩], []⟩ sampleStencil
    ⟨SpriteMaskInteraction.visibleInsideMask, 6, sampleStencil⟩ ⟨0, 7⟩
    (by decide) (by decide) (by decide)

/-- C5 (counterexample to the claim as stated): a renderer with
`maskInteraction ≠ None` and `maskLayer = 0` does receive a stencil draw
when the previous mask layer is nonzero: the transition `prev = 1 → cur = 0`
issues a decrement-saturate draw for the mask leaving scope, so the claimed
"no stencil mask draws regardless of the previous layer" fails. -/
theorem preRender_zero_layer_cex :
    (preRender ⟨1, [⟨0, 1⟩], []⟩ sampleStencil
        ⟨SpriteMaskInteraction.visibleInsideMask, 0, sampleStencil⟩).issuedDraws
      = [(⟨0, 1⟩, StencilOperation.decrementSaturate)] := by decide

/-- C5 (amended): a renderer with `maskLayer = 0` never causes an
increment-saturate draw, and when the previous mask layer is also 0 it
causes no stencil draws at all (decrement draws can still occur for masks
leaving scope); and a registered mask whose `influenceLayers` is 0 is never
drawn by any `preRender` call. -/
theorem preRender_zero_layer_draws
    (s : MaskManagerState) (temp : StencilState) (r : Renderer2D)
    (hml : r.maskLayer = 0) :
    (∀ m : SpriteMask,
        drawCountOf m StencilOperation.incrementSaturate
          (preRender s temp r).issuedDraws = 0) ∧
    (s.preMaskLayer = 0 → (preRender s temp r).issuedDraws = []) ∧
    (∀ (s2 : MaskManagerState) (t2 : StencilState) (r2 : Renderer2D) (m : SpriteMask),
        m.influenceLayers = 0 →
        drawsFor m (preRender s2 t2 r2).issuedDraws = 0) := by
  refine ⟨?_, ?_, ?_⟩
  · intro m
    by_cases hint : r.maskInteraction = SpriteMaskInteraction.none
    · simp [preRender, hint, drawCountOf]
    · simp only [preRender, if_neg hint, List.nil_append]
      by_cases hpre : s.preMaskLayer = r.maskLayer
      · simp [processMasksDiff, hpre, drawCountOf]
      · simp only [processMasksDiff, if_pos hpre]
        rw [drawCountOf_diffCore]
        rw [hml]
        simp [maskStencilOp_add_zero_ne_inc]
  · intro hpre
    by_cases hint : r.maskInteraction = SpriteMaskInteraction.none
    · simp [preRender, hint]
    · simp only [preRender, if_neg hint, List.nil_append]
      simp [processMasksDiff, hpre, hml]
  · intro s2 t2 r2 m hm
    by_cases hint : r2.maskInteraction = SpriteMaskInteraction.none
    · simp [preRender, hint, drawsFor]
    · simp only [preRender, if_neg hint, List.nil_append]
      by_cases hpre : s2.preMaskLayer = r2.maskLayer
      · simp [processMasksDiff, hpre, drawsFor]
      · simp only [processMasksDiff, if_pos hpre]
        rw [drawsFor_diffCore, hm]
        simp [maskStencilOp_zero_influence]

/-- Witness for the amended C5 theorem: `prev = 1`, `cur = 0`: no increment
draw is issued for the registered mask, and a zero-influence mask is never
drawn. -/
theorem preRender_zero_layer_draws_witness :
    drawCountOf ⟨0, 1⟩ StencilOperation.incrementSaturate
        (preRender ⟨1, [⟨0, 1⟩], []⟩ sampleStencil
          ⟨SpriteMaskInteraction.visibleInsideMask, 0, sampleStencil⟩).issuedDraws = 0 ∧
    drawsFor ⟨3, 0⟩
        (preRender ⟨1, [⟨3, 0⟩], []⟩ sampleStencil
          ⟨SpriteMaskInteraction.visibleInsideMask, 0, sampleStencil⟩).issuedDraws = 0 := by
  constructor
  · exact (preRender_zero_layer_draws ⟨1, [⟨0, 1⟩], []⟩ sampleStencil
      ⟨SpriteMaskInteraction.visibleInsideMask, 0, sampleStencil⟩ (by decide)).1 ⟨0, 1⟩
  · exact (preRender_zero_layer_draws ⟨1, [⟨3, 0⟩], []⟩ sampleStencil
      ⟨SpriteMaskInteraction.visibleInsideMask, 0, sampleStencil⟩ (by decide)).2.2
      ⟨1, [⟨3, 0⟩], []⟩ sampleStencil
      ⟨SpriteMaskInteraction.visibleInsideMask, 0, sampleStencil⟩ ⟨3, 0⟩ (by decide)

/-- C9 (counterexample to the claim as stated): for a renderer with
`maskInteraction = None`, `postRender` is a no-op and does not record
`prev = renderer.maskLayer`: with stored previous layer 1 and a `None`
renderer of mask layer 2, the stored layer stays 1. -/
theorem postRender_none_prev_cex :
    (postRender ⟨1, [], []⟩ sampleStencil
        ⟨SpriteMaskInteraction.none, 2, sampleStencil⟩).1.preMaskLayer = 1 ∧
      (1 : Nat) ≠ 2 := by decide

/-- C9 (amended): for every renderer whose `maskInteraction` is not `None`,
after `preRender` followed by `postRender` the stored previous mask layer
equals the renderer mask layer, and the renderer stencil-state fields
(enabled, writeMask, referenceValue, compareFunctionFront,
compareFunctionBack) are restored to their values from before `preRender`. -/
theorem prePostRender_restore
    (s : MaskManagerState) (temp : StencilState) (r : Renderer2D)
    (h : r.maskInteraction ≠ SpriteMaskInteraction.none) :
    (postRender (preRender s temp r).state (preRender s temp r).tempStencil
        r).1.preMaskLayer = r.maskLayer ∧
    (postRender (preRender s temp r).state (preRender s temp r).tempStencil
        r).2 = r.stencilState := by
  simp [preRender, postRender, h]

/-- Witness for the amended C9 theorem at a concrete masked renderer. -/
theorem prePostRender_restore_witness :
    (postRender
        (preRender ⟨1, [⟨0, 2⟩], []⟩ sampleStencil
          ⟨SpriteMaskInteraction.visibleOutsideMask, 2, sampleStencil⟩).state
        (preRender ⟨1, [⟨0, 2⟩], []⟩ sampleStencil
          ⟨SpriteMaskInteraction.visibleOutsideMask, 2, sampleStencil⟩).tempStencil
        ⟨SpriteMaskInteraction.visibleOutsideMask, 2, sampleStencil⟩).1.preMaskLayer = 2 ∧
    (postRender
        (preRender ⟨1, [⟨0, 2⟩], []⟩ sampleStencil
          ⟨SpriteMaskInteraction.visibleOutsideMask, 2, sampleStencil⟩).state
        (preRender ⟨1, [⟨0, 2⟩], []⟩ sampleStencil
          ⟨SpriteMaskInteraction.visibleOutsideMask, 2, sampleStencil⟩).tempStencil
        ⟨SpriteMaskInteraction.visibleOutsideMask, 2, sampleStencil⟩).2 = sampleStencil :=
  prePostRender_restore ⟨1, [⟨0, 2⟩], []⟩ sampleStencil
    ⟨SpriteMaskInteraction.visibleOutsideMask, 2, sampleStencil⟩ (by decide)

/-- C10: `preRender` clears the mask batcher before batching the diff, so
the draws it issues are exactly the draws of the current prev-to-cur
transition, independent of whatever was pending in the batcher queue, and
the queue is left empty afterwards; hence no element batched during an
earlier `preRender` is drawn again by a later one. -/
theorem preRender_queue_isolated
    (s : MaskManagerState) (temp : StencilState) (r : Renderer2D)
    (q : List (SpriteMask × StencilOperation)) :
    (preRender { s with batcherQueue := q } temp r).issuedDraws
        = (if r.maskInteraction = SpriteMaskInteraction.none then []
           else processMasksDiff s.preMaskLayer r.maskLayer s.allSpriteMasks) ∧
    (r.maskInteraction ≠ SpriteMaskInteraction.none →
      (preRender { s with batcherQueue := q } temp r).state.batcherQueue = []) := by
  by_cases h : r.maskInteraction = SpriteMaskInteraction.none
  · simp [preRender, h]
  · simp [preRender, h]

/-- Witness for C10 at a nonempty stale queue. -/
theorem preRender_queue_isolated_witness :
    (preRender ⟨5, [⟨0, 2⟩], [(⟨9, 9⟩, StencilOperation.incrementSaturate)]⟩
        sampleStencil
        ⟨SpriteMaskInteraction.visibleInsideMask, 6, sampleStencil⟩).issuedDraws
      = processMasksDiff 5 6 [⟨0, 2⟩] ∧
    (preRender ⟨5, [⟨0, 2⟩], [(⟨9, 9⟩, StencilOperation.incrementSaturate)]⟩
        sampleStencil
        ⟨SpriteMaskInteraction.visibleInsideMask, 6, sampleStencil⟩).state.batcherQueue
      = [] := by
  have h := preRender_queue_isolated ⟨5, [⟨0, 2⟩], []⟩ sampleStencil
    ⟨SpriteMaskInteraction.visibleInsideMask, 6, sampleStencil⟩
    [(⟨9, 9⟩, StencilOperation.incrementSaturate)]
  exact ⟨h.1.trans (by decide), h.2 (by decide)⟩

/-- C3 (counterexample to the claim as stated): in
`SpriteMaskBatcher._drawBatches`, an invalid program makes the loop body
execute `return`, aborting the whole loop — so after a chunk whose shader
fails, the following valid chunk is not drawn, contrary to the claim that
only the bad chunk is skipped. -/
theorem drawBatches_abort_cex :
    drawBatches [some ⟨0, true, false⟩, some ⟨1, true, true⟩] = [] ∧
      ¬ (1, StencilOperation.incrementSaturate)
          ∈ drawBatches [some ⟨0, true, false⟩, some ⟨1, true, true⟩] := by
  constructor
  · decide
  · decide

/-- C3 (amended): when one chunk of the batch has an invalid program, that
chunk and every chunk after it are skipped — the draws issued are exactly
the valid prefix before the failing chunk. -/
theorem drawBatches_valid_prefix (pre : List MaskChunk) (c : MaskChunk)
    (post : List (Option MaskChunk))
    (hpre : ∀ x ∈ pre, x.programValid = true)
    (hc : c.programValid = false) :
    drawBatches (pre.map some ++ some c :: post)
      = pre.map fun x =>
          (x.id, if x.isAdd then StencilOperation.incrementSaturate
                 else StencilOperation.decrementSaturate) := by
  induction pre with
  | nil => simp [drawBatches, hc]
  | cons x t ih =>
    have hx : x.programValid = true := hpre x (List.mem_cons_self x t)
    simp only [List.map_cons, List.cons_append, drawBatches, hx]
    simp only [Bool.true_eq_false, if_false]
    exact congrArg _ (ih fun y hy => hpre y (List.mem_cons_of_mem x hy))

/-- Witness for the amended C3 theorem: one valid chunk, then a failing
chunk, then another valid chunk — only the first is drawn. -/
theorem drawBatches_valid_prefix_witness :
    drawBatches [some ⟨0, true, true⟩, some ⟨1, false, false⟩, some ⟨2, true, true⟩]
      = [(0, StencilOperation.incrementSaturate)] := by
  have h := drawBatches_valid_prefix [⟨0, true, true⟩] ⟨1, false, false⟩
    [some ⟨2, true, true⟩] (by decide) (by decide)
  simpa using h

/-- C6: `SpriteBatcher.drawSprite` — when the accumulated vertex count plus
the element vertex count exceeds the fixed maximum, the batcher flushes
first and the element starts a fresh queue; otherwise the element is simply
appended. In every case the element joins the batcher exactly once, and no
element already accepted (flushed or pending) is dropped: across flushed
batches plus the pending queue, the occurrence count of the new element
rises by one and every other element count is unchanged. -/
theorem drawSprite_append_once (s : SpriteBatcherState) (e e2 : SpriteElem) :
    totalOcc e2 (drawSprite s e) = totalOcc e2 s + (if e2 = e then 1 else 0) ∧
    (s.vertexCount + e.vertexCount > MAX_VERTEX_COUNT →
      (drawSprite s e).batchedQueue = [e]) ∧
    (s.vertexCount + e.vertexCount ≤ MAX_VERTEX_COUNT →
      (drawSprite s e).batchedQueue = s.batchedQueue ++ [e]) := by
  refine ⟨?_, ?_, ?_⟩
  · by_cases hover : s.vertexCount + e.vertexCount > MAX_VERTEX_COUNT
    · simp only [drawSprite, if_pos hover]
      rw [totalOcc_append_elem, totalOcc_flushBatcher]
    · simp only [drawSprite, if_neg hover]
      rw [totalOcc_append_elem]
  · intro hover
    simp only [drawSprite, if_pos hover]
    by_cases hq : s.batchedQueue = []
    · simp [flushBatcher, hq]
    · simp [flushBatcher, hq]
  · intro hle
    have hover : ¬ s.vertexCount + e.vertexCount > MAX_VERTEX_COUNT := by omega
    simp only [drawSprite, if_neg hover]

/-- Witness for C6: an over-budget submission flushes the pending batch and
appends the element exactly once. -/
theorem drawSprite_append_once_witness :
    totalOcc ⟨2, 10⟩ (drawSprite ⟨65530, [⟨1, 3⟩], [[⟨0, 2⟩]]⟩ ⟨2, 10⟩)
        = totalOcc ⟨2, 10⟩ (⟨65530, [⟨1, 3⟩], [[⟨0, 2⟩]]⟩ : SpriteBatcherState)
            + (if (⟨2, 10⟩ : SpriteElem) = ⟨2, 10⟩ then 1 else 0) ∧
    (drawSprite ⟨65530, [⟨1, 3⟩], [[⟨0, 2⟩]]⟩ ⟨2, 10⟩).batchedQueue = [⟨2, 10⟩] :=
  ⟨(drawSprite_append_once ⟨65530, [⟨1, 3⟩], [[⟨0, 2⟩]]⟩ ⟨2, 10⟩ ⟨2, 10⟩).1,
   (drawSprite_append_once ⟨65530, [⟨1, 3⟩], [[⟨0, 2⟩]]⟩ ⟨2, 10⟩ ⟨2, 10⟩).2.1
     (by decide)⟩

/-- C7: after `uploadData(true)` the mesh buffer is no longer accessible:
every attribute set-accessor and get-accessor (positions, colors, normals,
UV0 through UV7, tangents, weights, joints) and both index accessors fail
immediately with the AccessDenied error
"Not allowed to access data while accessible is false.". -/
theorem uploadData_release_denies_access
    (m : ModelMesh) (kind : VertexAttributeKind) (a : ArrRef)
    (v : Option TypedIndexArray) :
    setAttr (uploadData m true) kind a = Except.error accessErrorMsg ∧
    getAttr (uploadData m true) kind = Except.error accessErrorMsg ∧
    setIndices (uploadData m true) v = Except.error accessErrorMsg ∧
    getIndices (uploadData m true) = Except.error accessErrorMsg := by
  simp [uploadData, setAttr, getAttr, setIndices, getIndices]

/-- C8: while the mesh is accessible, storing an attribute array whose
length equals the vertex count and reading it back yields the identical
array reference, and the identity is still preserved after
`uploadData(false)` (no release of the CPU copy). -/
theorem setAttr_getAttr_roundtrip
    (m : ModelMesh) (kind : VertexAttributeKind) (a : ArrRef)
    (hacc : m.accessible = true) (hlen : a.length = m.vertexCount) :
    Except.bind (setAttr m kind a) (fun m1 => getAttr m1 kind)
        = Except.ok (some a) ∧
    Except.bind (setAttr m kind a) (fun m1 => getAttr (uploadData m1 false) kind)
        = Except.ok (some a) := by
  by_cases hk : kind = VertexAttributeKind.position
  · subst hk
    simp [setAttr, getAttr, uploadData, hacc, Except.bind]
  · simp [setAttr, getAttr, uploadData, hacc, hlen, hk, Except.bind]

/-- Witness for C8: a color array of length 3 on a mesh with vertex count 3
round-trips by reference, also across a non-releasing upload. -/
theorem setAttr_getAttr_roundtrip_witness :
    Except.bind (setAttr { initialMesh with vertexCount := 3 }
        VertexAttributeKind.color ⟨7, 3⟩) (fun m1 => getAttr m1 VertexAttributeKind.color)
      = Except.ok (some ⟨7, 3⟩) ∧
    Except.bind (setAttr { initialMesh with vertexCount := 3 }
        VertexAttributeKind.color ⟨7, 3⟩)
        (fun m1 => getAttr (uploadData m1 false) VertexAttributeKind.color)
      = Except.ok (some ⟨7, 3⟩) :=
  setAttr_getAttr_roundtrip { initialMesh with vertexCount := 3 }
    VertexAttributeKind.color ⟨7, 3⟩ rfl rfl

/-- C4 (counterexample to the claim as stated): the stored index format
reflects the exact typed array passed, not the minimal width that can hold
every value: `setIndices` with a 16-bit array holding [0, 1, 2] stores
`UInt16`, while the minimal width of {8, 16, 32} bits for those values is
`UInt8` — so "stores an index width equal to the minimal of {8, 16, 32}
bits that can hold every index value" fails. -/
theorem setIndices_minimal_width_cex :
    Except.map (fun m1 => m1.indicesFormat)
        (setIndices initialMesh (some (TypedIndexArray.u16 [0, 1, 2])))
      = Except.ok (some IndexFormat.uInt16) ∧
    minimalIndexFormat [0, 1, 2] = IndexFormat.uInt8 ∧
    IndexFormat.uInt16 ≠ IndexFormat.uInt8 := by
  refine ⟨rfl, by decide, by decide⟩

/-- C4 (amended): `setIndices` with a non-null typed array stores the index
format matching the exact array type passed — `UInt8` for an 8-bit array,
`UInt16` for a 16-bit array, `UInt32` for a 32-bit array — so setting
[0, 1, 2] as 8-bit, then 16-bit, then 32-bit stores `UInt8`, `UInt16`,
`UInt32` in turn. -/
theorem setIndices_format_matches_array
    (m : ModelMesh) (d8 d16 d32 : List Nat) (hacc : m.accessible = true) :
    Except.map (fun m2 => m2.indicesFormat)
        (setIndices m (some (TypedIndexArray.u8 d8)))
      = Except.ok (some IndexFormat.uInt8) ∧
    Except.map (fun m2 => m2.indicesFormat)
        (Except.bind (setIndices m (some (TypedIndexArray.u8 d8)))
          (fun m1 => setIndices m1 (some (TypedIndexArray.u16 d16))))
      = Except.ok (some IndexFormat.uInt16) ∧
    Except.map (fun m2 => m2.indicesFormat)
        (Except.bind (setIndices m (some (TypedIndexArray.u8 d8)))
          (fun m1 => Except.bind (setIndices m1 (some (TypedIndexArray.u16 d16)))
            (fun m2 => setIndices m2 (some (TypedIndexArray.u32 d32)))))
      = Except.ok (some IndexFormat.uInt32) := by
  simp [setIndices, hacc, indicesFormatOf, Except.bind, Except.map]

/-- Witness for the amended C4 theorem at the test sequence [0, 1, 2]. -/
theorem setIndices_format_matches_array_witness :
    Except.map (fun m2 => m2.indicesFormat)
        (setIndices initialMesh (some (TypedIndexArray.u8 [0, 1, 2])))
      = Except.ok (some IndexFormat.uInt8) ∧
    Except.map (fun m2 => m2.indicesFormat)
        (Except.bind (setIndices initialMesh (some (TypedIndexArray.u8 [0, 1, 2])))
          (fun m1 => setIndices m1 (some (TypedIndexArray.u16 [0, 1, 2]))))
      = Except.ok (some IndexFormat.uInt16) ∧
    Except.map (fun m2 => m2.indicesFormat)
        (Except.bind (setIndices initialMesh (some (TypedIndexArray.u8 [0, 1, 2])))
          (fun m1 => Except.bind (setIndices m1 (some (TypedIndexArray.u16 [0, 1, 2])))
            (fun m2 => setIndices m2 (some (TypedIndexArray.u32 [0, 1, 2])))))
      = Except.ok (some IndexFormat.uInt32) :=
  setIndices_format_matches_array initialMesh [0, 1, 2] [0, 1, 2] [0, 1, 2] rfl

end EngineCore
